import Mathlib

/-!
Verification of the meeting-history controller
(`src/unnamed/part_000`, routed by `server/controllers/meeting/_routes.js`).

The controller exposes five handlers over a document store:
`add`, `index` (list), `view`, `deleteData` (soft-delete one) and
`deleteMany` (soft-delete many).  We embed the store as explicit lists of
typed documents and each handler as a pure function from the store (and the
authenticated actor attached to the request) to an HTTP-level response,
translating the MongoDB query/aggregation stages the handlers build
($match, $lookup, $unwind, $addFields/$concat/$toString/$map, $project,
findOne, findByIdAndUpdate, updateMany) into list operations with the
engine's documented semantics.
-/

namespace MeetingCtrl

/-- A stored meeting document (`MeetingHistory`). -/
structure Meeting where
  mid : Nat
  agenda : String
  dateTime : String
  timestamp : String
  location : String
  notes : String
  createBy : Nat
  attendes : List Nat
  deleted : Bool
deriving DecidableEq, Repr

/-- A stored `User` document (creator / authenticated actor lookup). -/
structure User where
  uid : Nat
  firstName : String
  lastName : String
  role : String
deriving DecidableEq, Repr

/-- A stored `Contact` document (meeting attendee). -/
structure Contact where
  cid : Nat
  firstName : String
  lastName : String
deriving DecidableEq, Repr

/-- The document store: the `MeetingHistory` collection plus the `User` and
`Contacts` collections the read pipelines join against. -/
structure Store where
  meetings : List Meeting
  users : List User
  contacts : List Contact
deriving DecidableEq, Repr

/-- The authenticated identity the auth middleware attaches to the request
(`req.user`). -/
structure Actor where
  userId : Nat
deriving DecidableEq, Repr

/-- `$unwind` with `preserveNullAndEmptyArrays: true`: an empty array keeps
the document with the field missing (`none`); otherwise one output document
per array element. -/
def unwindPreserve {α : Type} : List α → List (Option α)
  | [] => [none]
  | xs => xs.map some

/-! ## index (list) -/

/-- Caller-supplied query parameters the list handler consumes
(`req.query`): an optional creator filter; other keys are untouched by the
handler's mutations and irrelevant to the claims. -/
structure ReqQuery where
  createBy : Option Nat := none
deriving DecidableEq, Repr

/-- The effective filter the list handler passes to `$match` after its
mutations: `query.deleted = false` is always set, and `query.createBy` is
set to the actor's id unless the looked-up user's role is `superAdmin`. -/
structure EffQuery where
  deleted : Bool
  createBy : Option Nat
deriving DecidableEq, Repr

/-- Lines 44-53 of the handler: take `req.query`, force `deleted = false`,
fetch the actor's `User` record, and unless `user?.role === "superAdmin"`
overwrite `createBy` with the actor's id. -/
def buildIndexQuery (s : Store) (actorId : Nat) (q : ReqQuery) : EffQuery :=
  let userOpt := s.users.find? (fun u => u.uid == actorId)
  let isSuper := match userOpt with
    | some u => u.role == "superAdmin"
    | none => false
  { deleted := false
    createBy := if isSuper then q.createBy else some actorId }

/-- `$match` against the effective list filter. -/
def matchIndex (q : EffQuery) (m : Meeting) : Bool :=
  m.deleted == q.deleted &&
    (match q.createBy with
     | none => true
     | some c => m.createBy == c)

/-- A row of the list result after `$project`:
`{_id, agenda, dateTime, timestamp, createdByName}`.  `createdByName` is
`$concat` of the unwound creator's first and last name; when the creator
lookup matched nothing the field is missing and `$concat` yields null
(`none`). -/
structure IndexDoc where
  mid : Nat
  agenda : String
  dateTime : String
  timestamp : String
  createdByName : Option String
deriving DecidableEq, Repr

/-- The list aggregation pipeline (lines 56-96): `$match` the effective
query, `$lookup` the creator from `User` by `createBy = _id`, `$unwind`
with preserve, `$addFields createdByName`, `$project`. -/
def indexAggregate (s : Store) (q : EffQuery) : List IndexDoc :=
  (s.meetings.filter (matchIndex q)).flatMap (fun m =>
    (unwindPreserve (s.users.filter (fun u => u.uid == m.createBy))).map
      (fun co =>
        { mid := m.mid
          agenda := m.agenda
          dateTime := m.dateTime
          timestamp := m.timestamp
          createdByName := co.map (fun u => u.firstName ++ " " ++ u.lastName) }))

/-- The `index` handler: builds the effective query from the caller's query
and the actor, then runs the aggregation.  (The success path responds 200
with this array; failures respond 500.) -/
def index (a : Actor) (s : Store) (q : ReqQuery) : List IndexDoc :=
  indexAggregate s (buildIndexQuery s a.userId q)

/-! ## view -/

/-- A row of the view result after `$project`:
`{_id, agenda, dateTime, timestamp, createdByName, location, attendesNames,
notes}`.  `createdByName` runs `$toString` on the unwound creator's name
fields ($toString of a missing field is null, and `$concat` with a null
argument is null, hence `Option`).  `attendesNames` as written in the
pipeline may evaluate to null (`none`); see `viewDocsOfMeeting`. -/
structure ViewDoc where
  mid : Nat
  agenda : String
  dateTime : String
  timestamp : String
  createdByName : Option String
  location : String
  attendesNames : Option (List String)
  notes : String
deriving DecidableEq, Repr

/-- The error MongoDB raises when `$map`'s `input` resolves to a non-array
value (here: the single contact document left in `attendesData` after the
pipeline's `$unwind` of that field). -/
def mapInputError : String := "input to $map must be an array not object"

/-- The per-meeting body of the view aggregation (lines 134-202): `$lookup`
the creator from `User`, `$unwind` with preserve, `$lookup` the attendees
from `Contacts` (foreign `_id` in the `attendes` array, results in store
order), `$unwind` `attendesData` with preserve, then `$addFields`.  After
the unwind, `attendesData` holds a single contact document (or is missing),
so the `$map` over it yields null when the field is missing and raises
`mapInputError` when a contact is present. -/
def viewDocsOfMeeting (s : Store) (m : Meeting) : Except String (List ViewDoc) :=
  let creatorOpts := unwindPreserve (s.users.filter (fun u => u.uid == m.createBy))
  let attOpts := unwindPreserve (s.contacts.filter (fun c => m.attendes.contains c.cid))
  (creatorOpts.flatMap (fun co => attOpts.map (fun ao => (co, ao)))).mapM
    (fun p =>
      match p.2 with
      | some _ => .error mapInputError
      | none =>
        .ok { mid := m.mid
              agenda := m.agenda
              dateTime := m.dateTime
              timestamp := m.timestamp
              createdByName := p.1.map (fun u => u.firstName ++ " " ++ u.lastName)
              location := m.location
              attendesNames := none
              notes := m.notes })

/-- The whole view aggregation: `$match {_id: response._id}` then the
per-meeting stages; any stage error fails the whole pipeline. -/
def viewAggregate (s : Store) (mid : Nat) : Except String (List ViewDoc) := do
  let rows ← (s.meetings.filter (fun m => m.mid == mid)).mapM (viewDocsOfMeeting s)
  return rows.flatten

/-- The body of a view response. -/
inductive ViewBody where
  | msg (s : String)
  | err (s : String)
  | doc (d : ViewDoc)
deriving DecidableEq, Repr

/-- A view response: HTTP status plus body. -/
structure ViewResp where
  status : Nat
  body : ViewBody
deriving DecidableEq, Repr

/-- The `view` handler (lines 114-217): `findOne {_id}` — 404
"No meeting found." when absent; else run the aggregation — a thrown error
responds 400 with the error's message, an empty result responds 404
"No data found for this meeting.", else 200 with `result[0]`.  The handler
reads nothing from the actor beyond what auth requires. -/
def view (_a : Actor) (s : Store) (id : Nat) : ViewResp :=
  match s.meetings.find? (fun m => m.mid == id) with
  | none => { status := 404, body := .msg "No meeting found." }
  | some response =>
    match viewAggregate s response.mid with
    | .error e => { status := 400, body := .err e }
    | .ok [] => { status := 404, body := .msg "No data found for this meeting." }
    | .ok (d :: _) => { status := 200, body := .doc d }

/-! ## add (create) -/

/-- The caller-supplied record body the create handler persists
(`req.body`). -/
structure MeetingBody where
  agenda : String
  dateTime : String
  location : String
  notes : String
  createBy : Nat
  attendes : List Nat
deriving DecidableEq, Repr

/-- Modelled from the spec: the meeting schema (`model/schema/meeting`) is
not under `src/`; per the spec the store assigns a fresh identity and a
creation timestamp, and `deleted` defaults to `false`. -/
def bodyToMeeting (newId : Nat) (ts : String) (b : MeetingBody) : Meeting :=
  { mid := newId
    agenda := b.agenda
    dateTime := b.dateTime
    timestamp := ts
    location := b.location
    notes := b.notes
    createBy := b.createBy
    attendes := b.attendes
    deleted := false }

/-- The `add` handler (lines 14-24): persist the body as a new record and
respond 200 with the persisted record (the identity/timestamp assignment is
the store's; see `bodyToMeeting`). -/
def add (s : Store) (newId : Nat) (ts : String) (b : MeetingBody) :
    Store × Meeting :=
  let m := bodyToMeeting newId ts b
  ({ s with meetings := s.meetings ++ [m] }, m)

/-! ## deleteData (soft-delete one) -/

/-- `findByIdAndUpdate(id, {deleted: true})`: set `deleted` on the matching
record and return the pre-update document, `none` when no record matches. -/
def findByIdAndUpdateDeleted (s : Store) (id : Nat) : Store × Option Meeting :=
  match s.meetings.find? (fun m => m.mid == id) with
  | none => (s, none)
  | some m =>
    ({ s with
        meetings := s.meetings.map (fun x =>
          if x.mid == id then { x with deleted := true } else x) },
     some m)

/-- A soft-delete-one response: always carries a message plus the update
outcome (the pre-update document, or `none` when nothing matched). -/
structure DeleteResp where
  status : Nat
  message : String
  result : Option Meeting
deriving DecidableEq, Repr

/-- The `deleteData` handler (lines 227-240): `findByIdAndUpdate` then a
200 confirmation with the outcome; no existence check, no actor check. -/
def deleteData (_a : Actor) (s : Store) (id : Nat) : Store × DeleteResp :=
  let p := findByIdAndUpdateDeleted s id
  (p.1, { status := 200, message := "Meeting deleted successfully", result := p.2 })

/-! ## deleteMany (soft-delete many) -/

/-- The bulk-update summary `updateMany` returns. -/
structure UpdateResult where
  matchedCount : Nat
  modifiedCount : Nat
deriving DecidableEq, Repr

/-- `updateMany({_id: {$in: ids}}, {$set: {deleted: true}})`: set `deleted`
on every record whose id is in `ids`; the summary counts matched records
and those actually changed. -/
def updateManySetDeleted (s : Store) (ids : List Nat) : Store × UpdateResult :=
  let matched := s.meetings.filter (fun m => ids.contains m.mid)
  ({ s with
      meetings := s.meetings.map (fun m =>
        if ids.contains m.mid then { m with deleted := true } else m) },
   { matchedCount := matched.length
     modifiedCount := (matched.filter (fun m => !m.deleted)).length })

/-- A soft-delete-many response: a message plus the bulk-update summary. -/
structure DeleteManyResp where
  status : Nat
  message : String
  result : UpdateResult
deriving DecidableEq, Repr

/-- The `deleteMany` handler (lines 249-263): `updateMany` over the ids in
the body, then a 200 confirmation with the summary; no actor check. -/
def deleteMany (_a : Actor) (s : Store) (ids : List Nat) :
    Store × DeleteManyResp :=
  let p := updateManySetDeleted s ids
  (p.1, { status := 200, message := "Meetings deleted successfully", result := p.2 })

/-! ## Concrete fixtures -/

/-- A non-superAdmin user, creator of the fixture meetings. -/
def userAlice : User := ⟨10, "Alice", "Smith", "user"⟩

/-- A superAdmin user. -/
def userRoot : User := ⟨11, "Root", "Admin", "superAdmin"⟩

/-- A stored contact. -/
def contactBob : Contact := ⟨20, "Bob", "Jones"⟩

/-- A second stored contact. -/
def contactCarol : Contact := ⟨21, "Carol", "Lee"⟩

/-- A live meeting with two attendee references to stored contacts. -/
def meetingSync : Meeting :=
  ⟨1, "Sync", "2024-01-01T10:00:00Z", "ts0", "HQ", "standup", 10, [20, 21], false⟩

/-- A soft-deleted meeting (`deleted = true`) with no attendees. -/
def meetingGone : Meeting :=
  ⟨2, "Old plans", "2023-05-05T09:00:00Z", "ts1", "Cafe", "stale", 10, [], true⟩

/-- A live meeting with no attendees. -/
def meetingSolo : Meeting :=
  ⟨3, "Solo", "2024-02-02T11:00:00Z", "ts2", "Desk", "quiet", 10, [], false⟩

/-- The fixture store. -/
def store0 : Store :=
  ⟨[meetingSync, meetingGone, meetingSolo], [userAlice, userRoot], [contactBob, contactCarol]⟩

/-- The authenticated fixture actor (Alice's identity). -/
def actorAlice : Actor := ⟨10⟩

/-! ## Helper lemmas -/

/-- After mapping the set-deleted update over a list, every element whose id
matches carries `deleted = true`. -/
theorem setDeleted_post (l : List Meeting) (id : Nat) :
    ∀ m ∈ l.map (fun x => if x.mid == id then { x with deleted := true } else x),
      m.mid = id → m.deleted = true := by
  intro m hm hmid
  rw [List.mem_map] at hm
  obtain ⟨x, _, rfl⟩ := hm
  by_cases h : (x.mid == id) = true
  · simp [h]
  · rw [if_neg h] at hmid
    exact absurd (by simpa using hmid) (by simpa using h)

/-- After `findByIdAndUpdateDeleted`, every stored meeting whose id matches
carries `deleted = true` (when nothing matched, no stored meeting has that
id). -/
theorem findByIdAndUpdateDeleted_post (s : Store) (id : Nat) :
    ∀ m ∈ (findByIdAndUpdateDeleted s id).1.meetings, m.mid = id → m.deleted = true := by
  intro m hm hmid
  unfold findByIdAndUpdateDeleted at hm
  cases hfind : s.meetings.find? (fun m2 => m2.mid == id) with
  | none =>
    rw [hfind] at hm
    have hnone := List.find?_eq_none.mp hfind m hm
    exact absurd (by simpa using hmid) (by simpa using hnone)
  | some m0 =>
    rw [hfind] at hm
    exact setDeleted_post s.meetings id m hm hmid

/-! ## Claim theorems -/

/-- C1 (counterexample).  The claim as stated is false on the view path:
`meetingGone` is stored with `deleted = true`, yet viewing its id returns
the record with status 200 — the view handler's `findOne {_id}` and its
`$match {_id}` apply no `deleted` filter. -/
theorem view_returns_soft_deleted_record :
    meetingGone.deleted = true ∧
    meetingGone ∈ store0.meetings ∧
    view actorAlice store0 meetingGone.mid =
      { status := 200
        body := .doc
          { mid := 2
            agenda := "Old plans"
            dateTime := "2023-05-05T09:00:00Z"
            timestamp := "ts1"
            createdByName := some "Alice Smith"
            location := "Cafe"
            attendesNames := none
            notes := "stale" } } := by
  refine ⟨rfl, by decide, by decide⟩

/-- C1 (amended).  The list operation never returns a soft-deleted record:
its effective query always carries `deleted = false`, and every summary it
returns comes from a stored meeting with `deleted = false`. -/
theorem index_never_returns_deleted (a : Actor) (s : Store) (q : ReqQuery) :
    (buildIndexQuery s a.userId q).deleted = false ∧
    ∀ d ∈ index a s q, ∃ m ∈ s.meetings, m.mid = d.mid ∧ m.deleted = false := by
  refine ⟨rfl, ?_⟩
  intro d hd
  unfold index indexAggregate at hd
  rw [List.mem_flatMap] at hd
  obtain ⟨m, hm, hdm⟩ := hd
  rw [List.mem_filter] at hm
  rw [List.mem_map] at hdm
  obtain ⟨co, _, rfl⟩ := hdm
  refine ⟨m, hm.1, rfl, ?_⟩
  have h2 := hm.2
  unfold matchIndex at h2
  rw [Bool.and_eq_true] at h2
  simpa using h2.1

/-- C1 (witness for the amended theorem).  On the fixture store the
effective query of Alice's list call carries `deleted = false`, and the
summary of `meetingSync` it returns comes from a non-deleted stored
meeting. -/
theorem index_never_returns_deleted_witness :
    (buildIndexQuery store0 actorAlice.userId {}).deleted = false ∧
    ∃ m ∈ store0.meetings,
      m.mid = (⟨1, "Sync", "2024-01-01T10:00:00Z", "ts0", some "Alice Smith"⟩ : IndexDoc).mid ∧
      m.deleted = false :=
  ⟨(index_never_returns_deleted actorAlice store0 {}).1,
   (index_never_returns_deleted actorAlice store0 {}).2
     ⟨1, "Sync", "2024-01-01T10:00:00Z", "ts0", some "Alice Smith"⟩ (by decide)⟩

/-- C2.  When the actor's looked-up User record exists: a non-superAdmin
role forces the effective list filter's `createBy` to the actor's own
identity regardless of the caller-supplied creator filter, while a
superAdmin role leaves the caller's creator filter untouched. -/
theorem index_effective_createBy (a : Actor) (s : Store) (q : ReqQuery) (u : User)
    (hu : s.users.find? (fun x => x.uid == a.userId) = some u) :
    (u.role ≠ "superAdmin" → (buildIndexQuery s a.userId q).createBy = some a.userId) ∧
    (u.role = "superAdmin" → (buildIndexQuery s a.userId q).createBy = q.createBy) := by
  constructor
  · intro hne
    simp [buildIndexQuery, hu, hne]
  · intro heq
    simp [buildIndexQuery, hu, heq]

/-- C2 (witness).  Alice (role "user") always gets `createBy = 10` even
when asking for meetings created by 11, while the superAdmin's
caller-supplied creator filter passes through untouched. -/
theorem index_effective_createBy_witness :
    (buildIndexQuery store0 10 ⟨some 11⟩).createBy = some 10 ∧
    (buildIndexQuery store0 11 ⟨some 10⟩).createBy = some 10 :=
  ⟨(index_effective_createBy ⟨10⟩ store0 ⟨some 11⟩ userAlice (by decide)).1 (by decide),
   (index_effective_createBy ⟨11⟩ store0 ⟨some 10⟩ userRoot (by decide)).2 (by decide)⟩

/-- C10.  When the actor's User lookup finds no record (dangling identity),
the handler treats the actor as non-superAdmin: the effective filter still
forces `createBy` to the actor's identity. -/
theorem index_dangling_actor_restricted (a : Actor) (s : Store) (q : ReqQuery)
    (h : s.users.find? (fun x => x.uid == a.userId) = none) :
    (buildIndexQuery s a.userId q).createBy = some a.userId := by
  simp [buildIndexQuery, h]

/-- C10 (witness).  Actor 99 has no User record in the fixture store, and
the effective filter pins `createBy` to 99. -/
theorem index_dangling_actor_restricted_witness :
    (buildIndexQuery store0 99 {}).createBy = some 99 :=
  index_dangling_actor_restricted ⟨99⟩ store0 {} (by decide)

/-- C3 (code bug).  `meetingSync` was created with attendee references to
the stored contacts Bob and Carol, yet viewing it does not yield the
attendee display names: the pipeline `$unwind`s `attendesData` before
running `$map` over it, so `$map` receives a single contact document
instead of an array and the aggregation fails, producing a 400 instead of
the enriched record. -/
theorem view_with_attendees_fails :
    meetingSync.attendes = [contactBob.cid, contactCarol.cid] ∧
    contactBob ∈ store0.contacts ∧ contactCarol ∈ store0.contacts ∧
    view actorAlice store0 meetingSync.mid =
      { status := 400, body := .err mapInputError } := by
  refine ⟨rfl, by decide, by decide, by decide⟩

/-- C4 (code bug).  A record created via `add` with agenda "Sync" and one
attendee reference to the stored contact Bob, then fetched via `view`,
responds 400 (the `$map`-over-unwound-field failure) instead of returning
the supplied agenda/dateTime/location/notes. -/
theorem add_view_roundtrip_fails :
    (add store0 7 "ts7" ⟨"Sync", "2024-03-03T10:00:00Z", "HQ", "prep", 10, [20]⟩).2.agenda
      = "Sync" ∧
    view actorAlice
        (add store0 7 "ts7" ⟨"Sync", "2024-03-03T10:00:00Z", "HQ", "prep", 10, [20]⟩).1
        (add store0 7 "ts7" ⟨"Sync", "2024-03-03T10:00:00Z", "HQ", "prep", 10, [20]⟩).2.mid
      = { status := 400, body := .err mapInputError } := by
  refine ⟨rfl, by decide⟩

/-- C5.  Soft-delete-one is idempotent: both invocations respond 200 (no
error path is taken), and after deleting the same id twice every stored
meeting with that id has `deleted = true`. -/
theorem deleteData_idempotent (a : Actor) (s : Store) (id : Nat) :
    (deleteData a s id).2.status = 200 ∧
    (deleteData a (deleteData a s id).1 id).2.status = 200 ∧
    ∀ m ∈ (deleteData a (deleteData a s id).1 id).1.meetings,
      m.mid = id → m.deleted = true := by
  refine ⟨rfl, rfl, ?_⟩
  intro m hm hmid
  exact findByIdAndUpdateDeleted_post (deleteData a s id).1 id m hm hmid

/-- C5 (witness).  Deleting meeting 1 twice in the fixture store: both
responses are 200 and the stored record with id 1 ends with
`deleted = true`. -/
theorem deleteData_idempotent_witness :
    (deleteData actorAlice store0 1).2.status = 200 ∧
    (deleteData actorAlice (deleteData actorAlice store0 1).1 1).2.status = 200 ∧
    ({ meetingSync with deleted := true } : Meeting).deleted = true :=
  ⟨(deleteData_idempotent actorAlice store0 1).1,
   (deleteData_idempotent actorAlice store0 1).2.1,
   (deleteData_idempotent actorAlice store0 1).2.2
     { meetingSync with deleted := true } (by decide) rfl⟩

/-- C6.  A view of an id matching no stored meeting responds 404 with the
message "No meeting found.", while an aggregation failure after a
successful lookup responds 400 carrying the underlying error message. -/
theorem view_not_found_vs_error (a : Actor) (s : Store) (id : Nat) :
    (s.meetings.find? (fun m => m.mid == id) = none →
      view a s id = { status := 404, body := .msg "No meeting found." }) ∧
    (∀ m e, s.meetings.find? (fun m2 => m2.mid == id) = some m →
      viewAggregate s m.mid = .error e →
      view a s id = { status := 400, body := .err e }) := by
  constructor
  · intro h
    simp [view, h]
  · intro m e hm he
    simp [view, hm, he]

/-- C6 (witness).  Id 99 matches nothing in the fixture store and views as
404 "No meeting found."; meeting 1 is found but its aggregation fails, and
views as 400 carrying the error message. -/
theorem view_not_found_vs_error_witness :
    view actorAlice store0 99 = { status := 404, body := .msg "No meeting found." } ∧
    view actorAlice store0 1 = { status := 400, body := .err mapInputError } :=
  ⟨(view_not_found_vs_error actorAlice store0 99).1 (by decide),
   (view_not_found_vs_error actorAlice store0 1).2 meetingSync mapInputError
     (by decide) rfl⟩

/-- C7.  Soft-delete-one always responds 200 with the confirmation message
and the update outcome; for an id matching no stored meeting the outcome is
`none` (no distinct not-found status is ever produced). -/
theorem deleteData_missing_id_still_200 (a : Actor) (s : Store) (id : Nat) :
    (deleteData a s id).2.status = 200 ∧
    (deleteData a s id).2.message = "Meeting deleted successfully" ∧
    (s.meetings.find? (fun m => m.mid == id) = none →
      (deleteData a s id).2.result = none) := by
  refine ⟨rfl, rfl, ?_⟩
  intro h
  simp [deleteData, findByIdAndUpdateDeleted, h]

/-- C7 (witness).  Deleting the non-existent id 99 in the fixture store
responds 200 with a `none` outcome. -/
theorem deleteData_missing_id_still_200_witness :
    (deleteData actorAlice store0 99).2.status = 200 ∧
    (deleteData actorAlice store0 99).2.result = none :=
  ⟨(deleteData_missing_id_still_200 actorAlice store0 99).1,
   (deleteData_missing_id_still_200 actorAlice store0 99).2.2 (by decide)⟩

/-- C8.  Soft-delete-many responds 200 with the confirmation message and
the store's bulk summary; it sets `deleted = true` on exactly the stored
records whose id is in the supplied array, leaving every other record
unchanged (ids matching nothing are silently ignored), and the summary
carries the matched and modified counts. -/
theorem deleteMany_bulk_semantics (a : Actor) (s : Store) (ids : List Nat) :
    (deleteMany a s ids).2.status = 200 ∧
    (deleteMany a s ids).2.message = "Meetings deleted successfully" ∧
    (deleteMany a s ids).1.meetings.length = s.meetings.length ∧
    (∀ i (h : i < s.meetings.length) (h2 : i < (deleteMany a s ids).1.meetings.length),
      (ids.contains (s.meetings.get ⟨i, h⟩).mid = true →
        (deleteMany a s ids).1.meetings.get ⟨i, h2⟩ =
          { s.meetings.get ⟨i, h⟩ with deleted := true }) ∧
      (ids.contains (s.meetings.get ⟨i, h⟩).mid = false →
        (deleteMany a s ids).1.meetings.get ⟨i, h2⟩ = s.meetings.get ⟨i, h⟩)) ∧
    (deleteMany a s ids).2.result.matchedCount =
      (s.meetings.filter (fun m => ids.contains m.mid)).length ∧
    (deleteMany a s ids).2.result.modifiedCount =
      ((s.meetings.filter (fun m => ids.contains m.mid)).filter
        (fun m => !m.deleted)).length := by
  refine ⟨rfl, rfl, by simp [deleteMany, updateManySetDeleted], ?_, rfl, rfl⟩
  intro i h h2
  constructor
  · intro hin
    have hmem : (s.meetings.get ⟨i, h⟩).mid ∈ ids := by simpa using hin
    simp [deleteMany, updateManySetDeleted, List.get_eq_getElem, List.getElem_map]
    intro hno
    exact absurd hmem hno
  · intro hout
    have hmem : (s.meetings.get ⟨i, h⟩).mid ∉ ids := by simpa using hout
    simp [deleteMany, updateManySetDeleted, List.get_eq_getElem, List.getElem_map]
    intro hyes
    exact absurd hyes hmem

/-- C8 (witness).  Calling deleteMany with `[1, 2, 50]` on the fixture
store (50 matches nothing): status 200, meeting 1 at position 0 becomes
deleted, meeting 3 at position 2 is untouched, and the summary reports 2
matched and 1 modified (meeting 2 was already deleted). -/
theorem deleteMany_bulk_semantics_witness :
    (deleteMany actorAlice store0 [1, 2, 50]).2.status = 200 ∧
    (deleteMany actorAlice store0 [1, 2, 50]).1.meetings.get ⟨0, by decide⟩ =
      { meetingSync with deleted := true } ∧
    (deleteMany actorAlice store0 [1, 2, 50]).1.meetings.get ⟨2, by decide⟩ =
      meetingSolo ∧
    (deleteMany actorAlice store0 [1, 2, 50]).2.result.matchedCount = 2 ∧
    (deleteMany actorAlice store0 [1, 2, 50]).2.result.modifiedCount = 1 :=
  ⟨(deleteMany_bulk_semantics actorAlice store0 [1, 2, 50]).1,
   ((deleteMany_bulk_semantics actorAlice store0 [1, 2, 50]).2.2.2.1 0
     (by decide) (by decide)).1 (by decide),
   ((deleteMany_bulk_semantics actorAlice store0 [1, 2, 50]).2.2.2.1 2
     (by decide) (by decide)).2 (by decide),
   by rw [(deleteMany_bulk_semantics actorAlice store0 [1, 2, 50]).2.2.2.2.1]; decide,
   by rw [(deleteMany_bulk_semantics actorAlice store0 [1, 2, 50]).2.2.2.2.2]; decide⟩

/-- C9.  Neither delete handler reads the authenticated actor: for any two
actors, both the resulting store and the response of soft-delete-one and
soft-delete-many are identical — no creator or role check restricts
deletion. -/
theorem delete_handlers_actor_blind (a1 a2 : Actor) (s : Store) (id : Nat)
    (ids : List Nat) :
    deleteData a1 s id = deleteData a2 s id ∧
    deleteMany a1 s ids = deleteMany a2 s ids :=
  ⟨rfl, rfl⟩

end MeetingCtrl
